import Mathlib

/-!
Verification of the journaled motion-control state machine of
`pimotorcontrol.py` (class `pimc`), via a shallow embedding.

Modelling conventions:
* The journal file is modelled by its contents, `Option String`
  (`none` = file missing).
* GPIO side effects and journal writes are recorded in an event log
  carried in the state, so that "performs no output-channel changes" and
  "written synchronously" are statable.
* The background journal-writer pool is modelled with single-threaded
  semantics: an asynchronous write (`use_future=True`) takes effect
  immediately but is tagged `useFuture := true` in the log; the blocking
  drain performed by `stop_and_housekeeping` is logged as `Ev.drain`.
* Wall-clock time in `wait_pulses` is modelled by the finite list of
  feedback samples observed before the timeout elapses (one sample per
  50 ms poll); exhausting the list is the timeout.  In
  `fake_wait_pulses` the loop body takes one second, so the number of
  iterations permitted by the timeout is `maxtime` itself.
* Python `int` values are `Int`; `int(s)` is `pyInt?`; `s.split()` is
  `pySplit`; `s.strip()` is `pyStrip` (all list-based structural
  recursion, so they reduce by kernel computation).
-/

namespace Pimc

/-- GPIO pin of motor lead 1 (`CH1 = 26`). -/
def CH1 : Nat := 26

/-- GPIO pin of motor lead 2 (`CH2 = 20`). -/
def CH2 : Nat := 20

/-- GPIO pin of the pulse feedback input (`PULSE = 5`). -/
def PULSE : Nat := 5

/-- Observable events of a run: journal/status updates (with the
`use_future` flag), GPIO output-channel changes, the 250 ms settle
delay, and the blocking drain of pending journal futures. -/
inductive Ev
  | statusUpdate (s : String) (useFuture : Bool)
  | outHigh (ch : Nat)
  | outLow (ch : Nat)
  | settle
  | drain
deriving DecidableEq, Repr

/-- The mutable state of a `pimc` instance, plus the modelled journal
file contents and the event log. -/
structure PState where
  status : Option String
  journal : Option String
  motorBusy : Bool
  gpioInitialized : Bool
  fakingIt : Bool
  openPulses : Int
  closePulses : Int
  maxtime : Int
  ch1 : Bool
  ch2 : Bool
  log : List Ev
deriving DecidableEq, Repr

/-- Python `str.strip()` with no argument: remove leading and trailing
whitespace.  List-based so that it reduces by kernel computation. -/
def pyStrip (s : String) : String :=
  ⟨((s.toList.dropWhile Char.isWhitespace).reverse.dropWhile Char.isWhitespace).reverse⟩

/-- Worker for `pySplit`; `acc` holds the current token reversed. -/
def splitWSAux : List Char → List Char → List String
  | [], [] => []
  | [], acc => [⟨acc.reverse⟩]
  | c :: rest, acc =>
    if c.isWhitespace then
      match acc with
      | [] => splitWSAux rest []
      | _ => ⟨acc.reverse⟩ :: splitWSAux rest []
    else splitWSAux rest (c :: acc)

/-- Python `str.split()` with no argument: split on runs of whitespace,
discarding empty pieces. -/
def pySplit (s : String) : List String :=
  splitWSAux s.toList []

/-- Decimal digits to a number; `none` on a non-digit. -/
def pyDigitsAux : List Char → Nat → Option Nat
  | [], acc => some acc
  | c :: rest, acc =>
    if c.isDigit then pyDigitsAux rest (acc * 10 + (c.toNat - '0'.toNat))
    else none

/-- Nonempty all-digit character list to a number. -/
def pyDigits? : List Char → Option Nat
  | [] => none
  | cs => pyDigitsAux cs 0

/-- Python `int(s)`: optional surrounding whitespace, optional sign,
decimal digits; `none` models the `ValueError` raised otherwise. -/
def pyInt? (s : String) : Option Int :=
  match (pyStrip s).toList with
  | '+' :: rest => (pyDigits? rest).map fun n => (n : Int)
  | '-' :: rest => (pyDigits? rest).map fun n => -(n : Int)
  | l => (pyDigits? l).map fun n => (n : Int)

/-- `pimc.update_status`: set the in-memory status and write the journal,
either through a future (`use_future=True`, the default at call sites in
the wait loops) or synchronously. -/
def update_status (st : PState) (newStatus : String) (useFuture : Bool) : PState :=
  { st with
    status := some newStatus
    journal := some newStatus
    log := st.log ++ [Ev.statusUpdate newStatus useFuture] }

/-- `pimc.load_journal`: `None` when the file does not exist or its
stripped contents are empty; otherwise the stripped contents. -/
def load_journal (file : Option String) : Option String :=
  match file with
  | none => none
  | some contents =>
    let status := pyStrip contents
    if status = "" then none else some status

/-- `pimc.gpio_setup`: configures the pins once; returns whether setup
was performed on this call. -/
def gpio_setup (st : PState) : PState × Bool :=
  if st.gpioInitialized then (st, false)
  else ({ st with gpioInitialized := true }, true)

/-- `pimc.stop_and_housekeeping`: set both channels HIGH (idle), sleep
250 ms, clear the busy flag, then block on and purge all pending
journal futures. -/
def stop_and_housekeeping (st : PState) : PState :=
  let st := (gpio_setup st).1
  let st := { st with ch1 := true, log := st.log ++ [Ev.outHigh CH1] }
  let st := { st with ch2 := true, log := st.log ++ [Ev.outHigh CH2] }
  let st := { st with log := st.log ++ [Ev.settle] }
  let st := { st with motorBusy := false }
  { st with log := st.log ++ [Ev.drain] }

/-- `pimc.forward`: rejected (returns `false`) when the motor is busy;
otherwise sets busy, stops both channels, and (when not faking) pulls
CH1 LOW.  Note that `stop_and_housekeeping` clears `motor_busy` again
before `forward` returns. -/
def forward (st : PState) : PState × Bool :=
  if st.motorBusy then (st, false)
  else
    let st := { st with motorBusy := true }
    let st := stop_and_housekeeping st
    if st.fakingIt then (st, true)
    else ({ st with ch1 := false, log := st.log ++ [Ev.outLow CH1] }, true)

/-- `pimc.reverse`: mirror of `forward` on CH2. -/
def reverse (st : PState) : PState × Bool :=
  if st.motorBusy then (st, false)
  else
    let st := { st with motorBusy := true }
    let st := stop_and_housekeeping st
    if st.fakingIt then (st, true)
    else ({ st with ch2 := false, log := st.log ++ [Ev.outLow CH2] }, true)

/-- The loop of `pimc.wait_pulses`.  One recursive step per 50 ms poll
iteration; the sample list is the feedback trace observable before the
wall-clock timeout.  `last` is `last_state` (starts `None`), `seen` is
`pulses_seen`.  A pulse is counted when `state > last_state`
(low→high); on a counted pulse with a status argument the status is
updated to `"{status} {pulses - pulses_seen}"` via the future path. -/
def waitLoop (statusArg : Option String) (pulses : Int) :
    List Bool → Option Bool → Nat → PState → PState × Nat
  | [], _, seen, st => (st, seen)
  | state :: rest, last, seen, st =>
    if (seen : Int) < pulses then
      match last with
      | none => waitLoop statusArg pulses rest (some state) seen st
      | some l =>
        if state && !l then
          let seen := seen + 1
          let st :=
            match statusArg with
            | some s => update_status st (s ++ " " ++ toString (pulses - (seen : Int))) true
            | none => st
          waitLoop statusArg pulses rest (some state) seen st
        else
          waitLoop statusArg pulses rest (some state) seen st
    else (st, seen)

/-- `pimc.wait_pulses`: run the poll loop over the observable trace and
return `pulses_seen >= pulses`. -/
def wait_pulses (st : PState) (trace : List Bool) (pulses : Int)
    (statusArg : Option String) : PState × Bool :=
  let r := waitLoop statusArg pulses trace none 0 st
  (r.1, decide (pulses ≤ (r.2 : Int)))

/-- The loop of `pimc.fake_wait_pulses`.  One recursive step per
one-second iteration; `fuel` is the number of iterations the wall-clock
timeout permits.  Each iteration overwrites `last_state = 0` and
`state = 1` ("for faking it"), so the `last_state is None` baseline
branch of the source is dead and every iteration counts a pulse. -/
def fakeLoop (statusArg : Option String) (pulses : Int) :
    Nat → Option Bool → Nat → PState → PState × Nat
  | 0, _, seen, st => (st, seen)
  | fuel + 1, _lastPrev, seen, st =>
    if (seen : Int) < pulses then
      let last : Option Bool := some false
      let state : Bool := true
      match last with
      | none => fakeLoop statusArg pulses fuel (some state) seen st
      | some l =>
        if state && !l then
          let seen := seen + 1
          let st :=
            match statusArg with
            | some s => update_status st (s ++ " " ++ toString (pulses - (seen : Int))) true
            | none => st
          fakeLoop statusArg pulses fuel (some state) seen st
        else
          fakeLoop statusArg pulses fuel (some state) seen st
    else (st, seen)

/-- `pimc.fake_wait_pulses`: the loop sleeps one second per iteration,
so the timeout permits `maxtime` iterations. -/
def fake_wait_pulses (st : PState) (pulses : Int)
    (statusArg : Option String) : PState × Bool :=
  let r := fakeLoop statusArg pulses st.maxtime.toNat none 0 st
  (r.1, decide (pulses ≤ (r.2 : Int)))

/-- Return values of `pimc.open`/`pimc.close`: a normal Python return
(`False` on reject, `None` on fall-through), or the `TypeError` raised
by the busy branch, which calls the `Logger` object
(`self.logger("Aborted ...")`). -/
inductive PyRet
  | ret (v : Option Bool)
  | exn
deriving DecidableEq, Repr

/-- `pimc.open`: precondition `status == "closed"` unless resuming;
acquire the motor via `forward`; when not resuming write status
`"opening"`; run the (fake) wait loop with status `"opening"`; always
`stop_and_housekeeping`; then write the terminal status
synchronously. -/
def openOp (st : PState) (trace : List Bool) (pulsesArg : Option Int)
    (resuming : Bool) : PState × PyRet :=
  let pulses := pulsesArg.getD st.openPulses
  if !resuming ∧ st.status ≠ some "closed" then (st, PyRet.ret (some false))
  else
    let fw := forward st
    if !fw.2 then (fw.1, PyRet.exn)
    else
      let st := fw.1
      let st := if !resuming then update_status st "opening" true else st
      let w :=
        if st.fakingIt then fake_wait_pulses st pulses (some "opening")
        else wait_pulses st trace pulses (some "opening")
      let st := stop_and_housekeeping w.1
      if w.2 then (update_status st "open" false, PyRet.ret none)
      else (update_status st "failed opening" false, PyRet.ret none)

/-- `pimc.close`: mirror of `open` — precondition `status == "open"`,
`reverse`, status `"closing"`, terminal `"closed"`/`"failed closing"`. -/
def closeOp (st : PState) (trace : List Bool) (pulsesArg : Option Int)
    (resuming : Bool) : PState × PyRet :=
  let pulses := pulsesArg.getD st.closePulses
  if !resuming ∧ st.status ≠ some "open" then (st, PyRet.ret (some false))
  else
    let rv := reverse st
    if !rv.2 then (rv.1, PyRet.exn)
    else
      let st := rv.1
      let st := if !resuming then update_status st "closing" true else st
      let w :=
        if st.fakingIt then fake_wait_pulses st pulses (some "closing")
        else wait_pulses st trace pulses (some "closing")
      let st := stop_and_housekeeping w.1
      if w.2 then (update_status st "closed" false, PyRet.ret none)
      else (update_status st "failed closing" false, PyRet.ret none)

/-- `pimc.resume`: split the current status; for `opening`/`closing`
with a second token, parse it with `int` and return `False` on
`ValueError`; then re-invoke `open`/`close` with the parsed count and
`resuming=True`, returning `True` regardless of that call's outcome;
any other status returns `False`.  (`resume` is only reached with a
truthy status: `__init__` guards on `self.status`.) -/
def resumeOp (st : PState) (trace : List Bool) : PState × Bool :=
  let parts := pySplit (st.status.getD "")
  let tok := parts.headD ""
  let parsed : Option (Option Int) :=
    if (tok = "opening" ∨ tok = "closing") ∧ parts.length > 1 then
      match pyInt? (parts.getD 1 "") with
      | some n => some (some n)
      | none => none
    else some none
  match parsed with
  | none => (st, false)
  | some remaining_pulses =>
    if tok = "opening" then ((openOp st trace remaining_pulses true).1, true)
    else if tok = "closing" then ((closeOp st trace remaining_pulses true).1, true)
    else (st, false)

/-- `pimc.__init__`: note `self.maxtime = 30` — the literal constant,
not the `maxtime` argument.  Loads the journal, sets up GPIO unless
faking, and (when `resume` is requested and the loaded status is
truthy) either logs that there is nothing to resume (`open`/`closed`)
or runs `resume()`; `trace` feeds a resumed drive's wait loop. -/
def pimcInit (journalFile : Option String) (fakeIt : Bool)
    (openPulses closePulses maxtime : Int) (resumeFlag : Bool)
    (trace : List Bool) : PState :=
  let st : PState :=
    { status := none
      journal := journalFile
      motorBusy := false
      gpioInitialized := false
      fakingIt := fakeIt
      openPulses := openPulses
      closePulses := closePulses
      maxtime := 30
      ch1 := true
      ch2 := true
      log := [] }
  let st := { st with status := load_journal journalFile }
  let st := if st.fakingIt then st else (gpio_setup st).1
  if resumeFlag then
    match st.status with
    | none => st
    | some s =>
      let tok := (pySplit s).headD ""
      if tok = "open" ∨ tok = "closed" then st
      else (resumeOp st trace).1
  else st

/-- Specification-side pulse count of a feedback trace: the number of
low→high transitions, the first sample only establishing the
baseline. -/
def countRising : Option Bool → List Bool → Nat
  | _, [] => 0
  | none, s :: rest => countRising (some s) rest
  | some l, s :: rest => (if s && !l then 1 else 0) + countRising (some s) rest

/-- The status strings written by the events of a log, in order. -/
def statusWrites : List Ev → List String
  | [] => []
  | Ev.statusUpdate s _ :: rest => s :: statusWrites rest
  | Ev.outHigh _ :: rest => statusWrites rest
  | Ev.outLow _ :: rest => statusWrites rest
  | Ev.settle :: rest => statusWrites rest
  | Ev.drain :: rest => statusWrites rest

/-- A freshly constructed physical controller whose journal reads
`closed`. -/
def stClosed : PState :=
  pimcInit (some "closed") false 11 11 30 false []

/-- A freshly constructed physical controller whose journal reads
`open`. -/
def stOpen : PState :=
  pimcInit (some "open") false 11 11 30 false []

/-! ### Helper lemmas -/

theorem statusWrites_append (a b : List Ev) :
    statusWrites (a ++ b) = statusWrites a ++ statusWrites b := by
  induction a with
  | nil => rfl
  | cons e rest ih => cases e <;> simp [statusWrites, ih]

theorem toString_natCast_int (m : Nat) :
    toString ((m : Nat) : Int) = toString m := rfl

theorem update_status_log (st : PState) (s : String) (u : Bool) :
    (update_status st s u).log = st.log ++ [Ev.statusUpdate s u] := rfl

theorem update_status_statusWrites (st : PState) (s : String) (u : Bool) :
    statusWrites (update_status st s u).log = statusWrites st.log ++ [s] := by
  rw [update_status_log, statusWrites_append]
  rfl

/-- `pulses_seen` computed by the `wait_pulses` loop: the true rising-edge
count of the remaining trace, clipped at the target. -/
theorem waitLoop_count (a : Option String) (n : Nat) :
    ∀ (trace : List Bool) (last : Option Bool) (seen : Nat) (st : PState),
      seen ≤ n →
      (waitLoop a (n : Int) trace last seen st).2
        = min n (seen + countRising last trace) := by
  intro trace
  induction trace with
  | nil =>
    intro last seen st hseen
    simp only [waitLoop, countRising]
    omega
  | cons s rest ih =>
    intro last seen st hseen
    by_cases hlt : seen < n
    · have hlt' : ((seen : Nat) : Int) < ((n : Nat) : Int) := by exact_mod_cast hlt
      cases last with
      | none =>
        simp only [waitLoop, hlt', if_true, countRising]
        exact ih (some s) seen st hseen
      | some l =>
        cases hb : (s && !l) with
        | false =>
          simp only [waitLoop, hlt', if_true, hb, Bool.false_eq_true, if_false, countRising]
          rw [ih (some s) seen st hseen]
          omega
        | true =>
          simp only [waitLoop, hlt', if_true, hb, if_true, countRising]
          cases a with
          | none =>
            rw [ih (some s) (seen + 1) st (by omega)]
            omega
          | some p =>
            rw [ih (some s) (seen + 1) _ (by omega)]
            omega
    · have hn : seen = n := by omega
      have hlt' : ¬ ((seen : Nat) : Int) < ((n : Nat) : Int) := by exact_mod_cast hlt
      simp only [waitLoop, hlt', if_false]
      omega

/-- Status updates issued by the `wait_pulses` loop: one per confirmed
pulse, in order, carrying the remaining count `n - j` after the `j`-th
confirmed pulse. -/
theorem waitLoop_writes (p : String) (n : Nat) :
    ∀ (trace : List Bool) (last : Option Bool) (seen : Nat) (st : PState),
      seen ≤ n →
      statusWrites (waitLoop (some p) (n : Int) trace last seen st).1.log
        = statusWrites st.log
          ++ ((List.range' (seen + 1) (min n (seen + countRising last trace) - seen)).map
              fun j : Nat => p ++ " " ++ toString ((n : Int) - (j : Int))) := by
  intro trace
  induction trace with
  | nil =>
    intro last seen st hseen
    have h0 : min n (seen + countRising last []) - seen = 0 := by
      simp only [countRising]
      omega
    simp [waitLoop, h0]
  | cons s rest ih =>
    intro last seen st hseen
    by_cases hlt : seen < n
    · have hlt' : ((seen : Nat) : Int) < ((n : Nat) : Int) := by exact_mod_cast hlt
      cases last with
      | none =>
        simp only [waitLoop, hlt', if_true, countRising]
        exact ih (some s) seen st hseen
      | some l =>
        cases hb : (s && !l) with
        | false =>
          simp only [waitLoop, hlt', if_true, hb, Bool.false_eq_true, if_false, countRising]
          rw [ih (some s) seen st hseen]
          have : seen + (0 + countRising (some s) rest) = seen + countRising (some s) rest := by
            omega
          rw [this]
        | true =>
          simp only [waitLoop, hlt', if_true, hb, if_true, countRising]
          rw [ih (some s) (seen + 1) _ (by omega)]
          rw [update_status_statusWrites]
          have harith : min n (seen + (1 + countRising (some s) rest)) - seen
              = (min n (seen + 1 + countRising (some s) rest) - (seen + 1)) + 1 := by
            omega
          rw [harith, List.range'_succ]
          simp only [List.map_cons]
          rw [List.append_assoc, List.singleton_append]
    · have hlt' : ¬ ((seen : Nat) : Int) < ((n : Nat) : Int) := by exact_mod_cast hlt
      have h0 : min n (seen + countRising last (s :: rest)) - seen = 0 := by omega
      simp [waitLoop, hlt', h0]

/-- `pulses_seen` computed by the `fake_wait_pulses` loop: one pulse per
iteration (the synthesized `0 → 1` transition), clipped at the target —
no iteration is ever spent establishing a baseline. -/
theorem fakeLoop_count (a : Option String) (n : Nat) :
    ∀ (fuel : Nat) (last : Option Bool) (seen : Nat) (st : PState),
      seen ≤ n →
      (fakeLoop a (n : Int) fuel last seen st).2 = min n (seen + fuel) := by
  intro fuel
  induction fuel with
  | zero =>
    intro last seen st hseen
    simp only [fakeLoop]
    omega
  | succ fuel ih =>
    intro last seen st hseen
    by_cases hlt : seen < n
    · have hlt' : ((seen : Nat) : Int) < ((n : Nat) : Int) := by exact_mod_cast hlt
      cases a with
      | none =>
        simp only [fakeLoop, hlt', if_true]
        rw [if_pos (show (true && !false) = true from rfl)]
        rw [ih (some true) (seen + 1) st (by omega)]
        omega
      | some p =>
        simp only [fakeLoop, hlt', if_true]
        rw [if_pos (show (true && !false) = true from rfl)]
        rw [ih (some true) (seen + 1) _ (by omega)]
        omega
    · have hlt' : ¬ ((seen : Nat) : Int) < ((n : Nat) : Int) := by exact_mod_cast hlt
      simp only [fakeLoop, hlt', if_false]
      omega

/-- Status updates issued by the `fake_wait_pulses` loop: same shape as
the physical loop's, one per synthesized pulse. -/
theorem fakeLoop_writes (p : String) (n : Nat) :
    ∀ (fuel : Nat) (last : Option Bool) (seen : Nat) (st : PState),
      seen ≤ n →
      statusWrites (fakeLoop (some p) (n : Int) fuel last seen st).1.log
        = statusWrites st.log
          ++ ((List.range' (seen + 1) (min n (seen + fuel) - seen)).map
              fun j : Nat => p ++ " " ++ toString ((n : Int) - (j : Int))) := by
  intro fuel
  induction fuel with
  | zero =>
    intro last seen st hseen
    have h0 : min n (seen + 0) - seen = 0 := by omega
    simp [fakeLoop, h0]
  | succ fuel ih =>
    intro last seen st hseen
    by_cases hlt : seen < n
    · have hlt' : ((seen : Nat) : Int) < ((n : Nat) : Int) := by exact_mod_cast hlt
      simp only [fakeLoop, hlt', if_true]
      rw [if_pos (show (true && !false) = true from rfl)]
      rw [ih (some true) (seen + 1) _ (by omega)]
      rw [update_status_statusWrites]
      have harith : min n (seen + (fuel + 1)) - seen
          = (min n (seen + 1 + fuel) - (seen + 1)) + 1 := by
        omega
      rw [harith, List.range'_succ]
      simp only [List.map_cons]
      rw [List.append_assoc, List.singleton_append]
    · have hlt' : ¬ ((seen : Nat) : Int) < ((n : Nat) : Int) := by exact_mod_cast hlt
      have h0 : min n (seen + (fuel + 1)) - seen = 0 := by omega
      simp [fakeLoop, hlt', h0]

/-- Result of the physical wait: the target was reached iff the trace
contains at least that many rising edges after the baseline sample. -/
theorem wait_pulses_snd (st : PState) (trace : List Bool) (n : Nat)
    (a : Option String) :
    (wait_pulses st trace (n : Int) a).2 = decide (n ≤ countRising none trace) := by
  simp only [wait_pulses]
  rw [waitLoop_count a n trace none 0 st (Nat.zero_le n), decide_eq_decide]
  omega

/-- Status updates of the physical wait, from a zero start. -/
theorem wait_pulses_writes (st : PState) (trace : List Bool) (n : Nat) (p : String) :
    statusWrites (wait_pulses st trace (n : Int) (some p)).1.log
      = statusWrites st.log
        ++ ((List.range' 1 (min n (countRising none trace))).map
            fun j : Nat => p ++ " " ++ toString ((n : Int) - (j : Int))) := by
  simp only [wait_pulses]
  rw [waitLoop_writes p n trace none 0 st (Nat.zero_le n)]
  norm_num

/-- Result of the simulated wait: true iff the target is at most the
number of one-second iterations the timeout allows. -/
theorem fake_wait_pulses_snd (st : PState) (n m : Nat) (a : Option String)
    (hm : st.maxtime = (m : Int)) :
    (fake_wait_pulses st (n : Int) a).2 = decide (n ≤ m) := by
  simp only [fake_wait_pulses]
  rw [hm, Int.toNat_natCast,
    fakeLoop_count a n m none 0 st (Nat.zero_le n), decide_eq_decide]
  omega

/-- Status updates of the simulated wait, from a zero start. -/
theorem fake_wait_pulses_writes (st : PState) (n m : Nat) (p : String)
    (hm : st.maxtime = (m : Int)) :
    statusWrites (fake_wait_pulses st (n : Int) (some p)).1.log
      = statusWrites st.log
        ++ ((List.range' 1 (min n m)).map
            fun j : Nat => p ++ " " ++ toString ((n : Int) - (j : Int))) := by
  simp only [fake_wait_pulses]
  rw [hm, Int.toNat_natCast, fakeLoop_writes p n m none 0 st (Nat.zero_le n)]
  norm_num

theorem stop_and_housekeeping_eq (st : PState) :
    stop_and_housekeeping st
      = { st with
          gpioInitialized := true
          motorBusy := false
          ch1 := true
          ch2 := true
          log := st.log ++ [Ev.outHigh CH1, Ev.outHigh CH2, Ev.settle, Ev.drain] } := by
  obtain ⟨status, journal, mb, gi, fi, op, cl, mt, c1, c2, lg⟩ := st
  by_cases hg : gi <;> simp [stop_and_housekeeping, gpio_setup, hg]

theorem forward_eq (st : PState) (hb : st.motorBusy = false) (hf : st.fakingIt = false) :
    forward st
      = ({ st with
           gpioInitialized := true
           motorBusy := false
           ch1 := false
           ch2 := true
           log := st.log ++ [Ev.outHigh CH1, Ev.outHigh CH2, Ev.settle, Ev.drain,
             Ev.outLow CH1] },
         true) := by
  obtain ⟨status, journal, mb, gi, fi, op, cl, mt, c1, c2, lg⟩ := st
  simp only at hb hf
  subst hb hf
  by_cases hg : gi <;> simp [forward, stop_and_housekeeping, gpio_setup, hg]

theorem reverse_eq (st : PState) (hb : st.motorBusy = false) (hf : st.fakingIt = false) :
    reverse st
      = ({ st with
           gpioInitialized := true
           motorBusy := false
           ch1 := true
           ch2 := false
           log := st.log ++ [Ev.outHigh CH1, Ev.outHigh CH2, Ev.settle, Ev.drain,
             Ev.outLow CH2] },
         true) := by
  obtain ⟨status, journal, mb, gi, fi, op, cl, mt, c1, c2, lg⟩ := st
  simp only at hb hf
  subst hb hf
  by_cases hg : gi <;> simp [reverse, stop_and_housekeeping, gpio_setup, hg]

/-- The state of an `open` run at the moment the wait loop starts: the
motor has been acquired and, when not resuming, the bare `"opening"`
status has been written through the future path. -/
def openStart (st : PState) (resuming : Bool) : PState :=
  if !resuming then update_status (forward st).1 "opening" true else (forward st).1

/-- The state of a `close` run at the moment the wait loop starts. -/
def closeStart (st : PState) (resuming : Bool) : PState :=
  if !resuming then update_status (reverse st).1 "closing" true else (reverse st).1

theorem openStart_fakingIt (st : PState) (hb : st.motorBusy = false)
    (hf : st.fakingIt = false) (resuming : Bool) :
    (openStart st resuming).fakingIt = false := by
  rw [openStart, forward_eq st hb hf]
  cases resuming <;> simp [update_status, hf]

theorem closeStart_fakingIt (st : PState) (hb : st.motorBusy = false)
    (hf : st.fakingIt = false) (resuming : Bool) :
    (closeStart st resuming).fakingIt = false := by
  rw [closeStart, reverse_eq st hb hf]
  cases resuming <;> simp [update_status, hf]

/-- A physical (non-fake) `open` run that passes its precondition,
unfolded to the wait phase: the final state is the terminal synchronous
status update applied after `stop_and_housekeeping`, and the Python
return value is `None`. -/
theorem openOp_phys (st : PState) (trace : List Bool) (k : Int) (resuming : Bool)
    (hpre : resuming = true ∨ st.status = some "closed")
    (hb : st.motorBusy = false) (hf : st.fakingIt = false) :
    openOp st trace (some k) resuming
      = (update_status
          (stop_and_housekeeping
            (wait_pulses (openStart st resuming) trace k (some "opening")).1)
          (if (wait_pulses (openStart st resuming) trace k (some "opening")).2
            then "open" else "failed opening")
          false,
        PyRet.ret none) := by
  have hfw : (forward st).2 = true := by rw [forward_eq st hb hf]
  have hfi := openStart_fakingIt st hb hf resuming
  cases resuming with
  | true =>
    simp only [openStart, Bool.not_true, Bool.false_eq_true, if_false] at hfi ⊢
    simp only [openOp, Option.getD_some, Bool.not_true, Bool.false_eq_true, false_and,
      if_false, hfw, if_true, hfi]
    split <;> rfl
  | false =>
    have hs : st.status = some "closed" := by
      rcases hpre with h | h
      · exact absurd h (by simp)
      · exact h
    simp only [openStart, Bool.not_false, if_true] at hfi ⊢
    simp only [openOp, Option.getD_some, Bool.not_false, Bool.not_true,
      Bool.false_eq_true, true_and, hs, ne_eq, not_true_eq_false, if_false, hfw,
      if_true, hfi]
    split <;> rfl

/-- A physical (non-fake) `close` run that passes its precondition,
unfolded to the wait phase. -/
theorem closeOp_phys (st : PState) (trace : List Bool) (k : Int) (resuming : Bool)
    (hpre : resuming = true ∨ st.status = some "open")
    (hb : st.motorBusy = false) (hf : st.fakingIt = false) :
    closeOp st trace (some k) resuming
      = (update_status
          (stop_and_housekeeping
            (wait_pulses (closeStart st resuming) trace k (some "closing")).1)
          (if (wait_pulses (closeStart st resuming) trace k (some "closing")).2
            then "closed" else "failed closing")
          false,
        PyRet.ret none) := by
  have hrv : (reverse st).2 = true := by rw [reverse_eq st hb hf]
  have hfi := closeStart_fakingIt st hb hf resuming
  cases resuming with
  | true =>
    simp only [closeStart, Bool.not_true, Bool.false_eq_true, if_false] at hfi ⊢
    simp only [closeOp, Option.getD_some, Bool.not_true, Bool.false_eq_true, false_and,
      if_false, hrv, if_true, hfi]
    split <;> rfl
  | false =>
    have hs : st.status = some "open" := by
      rcases hpre with h | h
      · exact absurd h (by simp)
      · exact h
    simp only [closeStart, Bool.not_false, if_true] at hfi ⊢
    simp only [closeOp, Option.getD_some, Bool.not_false, Bool.not_true,
      Bool.false_eq_true, true_and, hs, ne_eq, not_true_eq_false, if_false, hrv,
      if_true, hfi]
    split <;> rfl

theorem stop_statusWrites (st : PState) :
    statusWrites (stop_and_housekeeping st).log = statusWrites st.log := by
  rw [stop_and_housekeeping_eq]
  show statusWrites (st.log ++ [Ev.outHigh CH1, Ev.outHigh CH2, Ev.settle, Ev.drain])
    = statusWrites st.log
  rw [statusWrites_append]
  simp [statusWrites]

theorem forward_statusWrites (st : PState) (hb : st.motorBusy = false)
    (hf : st.fakingIt = false) :
    statusWrites (forward st).1.log = statusWrites st.log := by
  rw [forward_eq st hb hf]
  show statusWrites (st.log ++ [Ev.outHigh CH1, Ev.outHigh CH2, Ev.settle, Ev.drain,
    Ev.outLow CH1]) = statusWrites st.log
  rw [statusWrites_append]
  simp [statusWrites]

theorem reverse_statusWrites (st : PState) (hb : st.motorBusy = false)
    (hf : st.fakingIt = false) :
    statusWrites (reverse st).1.log = statusWrites st.log := by
  rw [reverse_eq st hb hf]
  show statusWrites (st.log ++ [Ev.outHigh CH1, Ev.outHigh CH2, Ev.settle, Ev.drain,
    Ev.outLow CH2]) = statusWrites st.log
  rw [statusWrites_append]
  simp [statusWrites]

/-- The wait loop only ever appends to the event log. -/
theorem waitLoop_log_mono (a : Option String) (pulses : Int) :
    ∀ (trace : List Bool) (last : Option Bool) (seen : Nat) (st : PState),
      ∃ ext, (waitLoop a pulses trace last seen st).1.log = st.log ++ ext := by
  intro trace
  induction trace with
  | nil =>
    intro last seen st
    exact ⟨[], by simp [waitLoop]⟩
  | cons s rest ih =>
    intro last seen st
    by_cases hlt : (seen : Int) < pulses
    · cases last with
      | none =>
        simp only [waitLoop, hlt, if_true]
        exact ih (some s) seen st
      | some l =>
        cases hb : (s && !l) with
        | false =>
          simp only [waitLoop, hlt, if_true, hb, Bool.false_eq_true, if_false]
          exact ih (some s) seen st
        | true =>
          cases a with
          | none =>
            simp only [waitLoop, hlt, if_true, hb, if_true]
            exact ih (some s) (seen + 1) st
          | some p =>
            simp only [waitLoop, hlt, if_true, hb, if_true]
            obtain ⟨ext, hext⟩ := ih (some s) (seen + 1)
              (update_status st (p ++ " " ++ toString (pulses - ((seen + 1 : Nat) : Int))) true)
            refine ⟨Ev.statusUpdate (p ++ " " ++ toString (pulses - ((seen + 1 : Nat) : Int)))
              true :: ext, ?_⟩
            rw [hext]
            simp [update_status]
    · simp only [waitLoop, hlt, if_false]
      exact ⟨[], by simp⟩

/-- `resume` on a well-formed `opening <t>` status re-invokes `open`
with the parsed count and `resuming=True`, then returns `True`. -/
theorem resumeOp_opening (st : PState) (trace : List Bool) (t : String) (n : Int)
    (hs : st.status = some ("opening " ++ t))
    (hsplit : pySplit ("opening " ++ t) = ["opening", t])
    (hint : pyInt? t = some n) :
    resumeOp st trace = ((openOp st trace (some n) true).1, true) := by
  simp only [resumeOp, hs, Option.getD_some, hsplit, List.headD_cons, List.length_cons,
    List.getD_cons_succ, List.getD_cons_zero, hint]
  norm_num

/-- `resume` on a well-formed `closing <t>` status re-invokes `close`
with the parsed count and `resuming=True`, then returns `True`. -/
theorem resumeOp_closing (st : PState) (trace : List Bool) (t : String) (n : Int)
    (hs : st.status = some ("closing " ++ t))
    (hsplit : pySplit ("closing " ++ t) = ["closing", t])
    (hint : pyInt? t = some n) :
    resumeOp st trace = ((closeOp st trace (some n) true).1, true) := by
  simp only [resumeOp, hs, Option.getD_some, hsplit, List.headD_cons, List.length_cons,
    List.getD_cons_succ, List.getD_cons_zero, hint]
  norm_num
  intro h
  exact absurd h (by decide)

/-- `resume` on an in-progress status whose count token does not parse
as an integer returns `False` and leaves the state untouched. -/
theorem resumeOp_opening_malformed (st : PState) (trace : List Bool) (t : String)
    (hs : st.status = some ("opening " ++ t))
    (hsplit : pySplit ("opening " ++ t) = ["opening", t])
    (hint : pyInt? t = none) :
    resumeOp st trace = (st, false) := by
  simp only [resumeOp, hs, Option.getD_some, hsplit, List.headD_cons, List.length_cons,
    List.getD_cons_succ, List.getD_cons_zero, hint]
  norm_num

/-- Mirror of `resumeOp_opening_malformed` for `closing`. -/
theorem resumeOp_closing_malformed (st : PState) (trace : List Bool) (t : String)
    (hs : st.status = some ("closing " ++ t))
    (hsplit : pySplit ("closing " ++ t) = ["closing", t])
    (hint : pyInt? t = none) :
    resumeOp st trace = (st, false) := by
  simp only [resumeOp, hs, Option.getD_some, hsplit, List.headD_cons, List.length_cons,
    List.getD_cons_succ, List.getD_cons_zero, hint]
  norm_num

/-! ### Claim theorems -/

/-- Claim C1: the claim says the motor-busy flag stays set from the start of
the drive until the operation-final `stop_and_settle`, so that a second
`open`/`close` arriving during the pulse-wait loop is rejected as
MotorBusy.  The code violates this: `forward` itself calls
`stop_and_housekeeping`, which clears `motor_busy` before `forward`
returns, so during the entire pulse-wait loop the busy flag is already
`false` and a second `forward`/`reverse` succeeds and re-drives the
output channels instead of being rejected. -/
theorem claim1_busy_flag_not_held_through_wait :
    (forward stClosed).2 = true
  ∧ (forward stClosed).1.motorBusy = false
  ∧ (forward (forward stClosed).1).2 = true
  ∧ (forward (forward stClosed).1).1.ch1 = false
  ∧ (reverse (forward stClosed).1).2 = true :=
  ⟨rfl, rfl, rfl, rfl, rfl⟩

/-- Claim C2: the claim says the pulse-wait timeout equals the configured
`maxtime` constructor argument for every value.  The code violates
this: `__init__` executes `self.maxtime = 30`, so the field read by the
wait loops is the constant 30 regardless of the argument (here also
shown at the concrete failing input 5). -/
theorem claim2_maxtime_argument_ignored :
    (∀ mt : Int, (pimcInit (some "closed") false 11 11 mt false []).maxtime = 30)
  ∧ (pimcInit (some "closed") false 11 11 5 false []).maxtime ≠ 5 :=
  ⟨fun _ => rfl, by decide⟩

/-- Claim C6: a non-resuming `open()` invoked when the status is not
`closed`, and a non-resuming `close()` invoked when the status is not
`open`, return Python `False` (a rejected operation) with the whole
state — in-memory status, journal, output channels and event log —
untouched. -/
theorem claim6_wrong_state_rejected (st : PState) (trace : List Bool)
    (p : Option Int) (s : String) (hs : st.status = some s) :
    (s ≠ "closed" → openOp st trace p false = (st, PyRet.ret (some false)))
  ∧ (s ≠ "open" → closeOp st trace p false = (st, PyRet.ret (some false))) := by
  constructor
  · intro hne
    have hc : (!false) = true ∧ st.status ≠ some "closed" := by
      refine ⟨rfl, ?_⟩
      rw [hs]
      simp [hne]
    simp only [openOp, if_pos hc]
  · intro hne
    have hc : (!false) = true ∧ st.status ≠ some "open" := by
      refine ⟨rfl, ?_⟩
      rw [hs]
      simp [hne]
    simp only [closeOp, if_pos hc]

/-- Witness for C6 at concrete states: `open()` from `open` and
`close()` from `closed` are both rejected without state change. -/
theorem claim6_wrong_state_rejected_witness :
    openOp stOpen [] none false = (stOpen, PyRet.ret (some false))
  ∧ closeOp stClosed [] none false = (stClosed, PyRet.ret (some false)) :=
  ⟨(claim6_wrong_state_rejected stOpen [] none "open" rfl).1 (by decide),
   (claim6_wrong_state_rejected stClosed [] none "closed" rfl).2 (by decide)⟩

/-- Claim C8: `load_journal` yields no status when the file is missing or its
stripped contents are empty, and otherwise returns the stripped
contents; a controller constructed over a missing journal has status
`None`, performs no GPIO or journal events (even when resume-on-start
is requested), and both `open()` and `close()` then refuse with a
precondition rejection, so the motor is never driven.  Nothing in the
code retries the load. -/
theorem claim8_missing_or_empty_journal_is_fatal (s : String) (fk rs : Bool)
    (op cl mt : Int) (trace : List Bool) :
    load_journal none = none
  ∧ (pyStrip s = "" → load_journal (some s) = none)
  ∧ (pyStrip s ≠ "" → load_journal (some s) = some (pyStrip s))
  ∧ (pimcInit none fk op cl mt rs trace).status = none
  ∧ (pimcInit none fk op cl mt rs trace).log = []
  ∧ (∀ st : PState, st.status = none →
      openOp st trace none false = (st, PyRet.ret (some false))
      ∧ closeOp st trace none false = (st, PyRet.ret (some false))) := by
  refine ⟨rfl, ?_, ?_, ?_, ?_, ?_⟩
  · intro h
    simp [load_journal, h]
  · intro h
    simp [load_journal, h]
  · cases fk <;> cases rs <;> rfl
  · cases fk <;> cases rs <;> rfl
  · intro st h
    constructor
    · have hc : (!false) = true ∧ st.status ≠ some "closed" := by
        refine ⟨rfl, ?_⟩
        rw [h]
        simp
      simp only [openOp, if_pos hc]
    · have hc : (!false) = true ∧ st.status ≠ some "open" := by
        refine ⟨rfl, ?_⟩
        rw [h]
        simp
      simp only [closeOp, if_pos hc]

/-- Witness for C8 at concrete inputs: a whitespace-only file and a
missing file fail to load; a non-empty file loads; the missing-journal
controller refuses to open. -/
theorem claim8_missing_or_empty_journal_is_fatal_witness :
    load_journal (some " ") = none
  ∧ load_journal (some "closed") = some "closed"
  ∧ (pimcInit none false 11 11 30 false []).status = none
  ∧ openOp (pimcInit none false 11 11 30 false []) [] none false
      = (pimcInit none false 11 11 30 false [], PyRet.ret (some false)) :=
  ⟨(claim8_missing_or_empty_journal_is_fatal " " false false 11 11 30 []).2.1 (by decide),
   (claim8_missing_or_empty_journal_is_fatal "closed" false false 11 11 30 []).2.2.1
     (by decide),
   (claim8_missing_or_empty_journal_is_fatal "closed" false false 11 11 30 []).2.2.2.1,
   ((claim8_missing_or_empty_journal_is_fatal "closed" false false 11 11 30 []).2.2.2.2.2
     (pimcInit none false 11 11 30 false []) rfl).1⟩

/-- Claim C3: `wait_pulses(k)` over a feedback trace counts a pulse only
on a low→high transition with the very first sample discarded as a
baseline (this is exactly `countRising none`), returns `true` iff `k`
such transitions occur within the trace observable before the timeout
(`false` on timeout), and with a status prefix writes, after the `j`-th
confirmed pulse, the status `"<prefix> <k - j>"` — the remaining count
decreasing by exactly 1 per confirmed pulse. -/
theorem claim3_wait_pulses_contract (st : PState) (trace : List Bool) (n : Nat)
    (p : String) :
    ((wait_pulses st trace (n : Int) (some p)).2 = true
      ↔ n ≤ countRising none trace)
  ∧ statusWrites (wait_pulses st trace (n : Int) (some p)).1.log
      = statusWrites st.log
        ++ ((List.range' 1 (min n (countRising none trace))).map
            fun j : Nat => p ++ " " ++ toString (n - j)) := by
  constructor
  · rw [wait_pulses_snd]
    exact decide_eq_true_iff
  · rw [wait_pulses_writes]
    congr 1
    apply List.map_congr_left
    intro j hj
    have hj' : 1 ≤ j ∧ j < 1 + min n (countRising none trace) := by
      simpa using List.mem_range'_1.1 hj
    have hcast : ((n : Int) - (j : Int)) = ((n - j : Nat) : Int) := by
      have : j ≤ n := by omega
      omega
    rw [hcast, toString_natCast_int]

/-- Claim C4: every physical open/close run that reaches the pulse-wait
loop ends with `stop_and_housekeeping` (the stop/settle/drain events
immediately precede the terminal write in the log) followed by a
synchronous (`use_future=False`) terminal status write — `open` on
success, `failed opening` on timeout, mirrored for close — so the status
and the journal hold the terminal value when the call returns, and a
timeout never silently restores the prior status. -/
theorem claim4_always_stop_then_sync_terminal (st : PState) (trace : List Bool)
    (n : Nat) (resuming : Bool) (hb : st.motorBusy = false)
    (hf : st.fakingIt = false) :
    ((resuming = true ∨ st.status = some "closed") →
      ∃ l, (openOp st trace (some (n : Int)) resuming).1.log
          = l ++ [Ev.outHigh CH1, Ev.outHigh CH2, Ev.settle, Ev.drain,
              Ev.statusUpdate (if n ≤ countRising none trace then "open"
                else "failed opening") false]
        ∧ (openOp st trace (some (n : Int)) resuming).1.status
            = some (if n ≤ countRising none trace then "open" else "failed opening")
        ∧ (openOp st trace (some (n : Int)) resuming).1.journal
            = some (if n ≤ countRising none trace then "open" else "failed opening")
        ∧ (openOp st trace (some (n : Int)) resuming).2 = PyRet.ret none)
  ∧ ((resuming = true ∨ st.status = some "open") →
      ∃ l, (closeOp st trace (some (n : Int)) resuming).1.log
          = l ++ [Ev.outHigh CH1, Ev.outHigh CH2, Ev.settle, Ev.drain,
              Ev.statusUpdate (if n ≤ countRising none trace then "closed"
                else "failed closing") false]
        ∧ (closeOp st trace (some (n : Int)) resuming).1.status
            = some (if n ≤ countRising none trace then "closed" else "failed closing")
        ∧ (closeOp st trace (some (n : Int)) resuming).1.journal
            = some (if n ≤ countRising none trace then "closed" else "failed closing")
        ∧ (closeOp st trace (some (n : Int)) resuming).2 = PyRet.ret none) := by
  constructor
  · intro hpre
    rw [openOp_phys st trace (n : Int) resuming hpre hb hf]
    have hw := wait_pulses_snd (openStart st resuming) trace n (some "opening")
    have hT : (if (wait_pulses (openStart st resuming) trace (n : Int)
          (some "opening")).2 = true then "open" else "failed opening")
        = (if n ≤ countRising none trace then "open" else "failed opening") := by
      rw [hw]
      by_cases h : n ≤ countRising none trace <;> simp [h]
    refine ⟨(wait_pulses (openStart st resuming) trace (n : Int)
      (some "opening")).1.log, ?_, ?_, ?_, rfl⟩
    · show (update_status _ _ _).log = _
      rw [update_status_log, stop_and_housekeeping_eq, hT]
      simp
    · show (update_status _ _ _).status = _
      rw [hT]
      rfl
    · show (update_status _ _ _).journal = _
      rw [hT]
      rfl
  · intro hpre
    rw [closeOp_phys st trace (n : Int) resuming hpre hb hf]
    have hw := wait_pulses_snd (closeStart st resuming) trace n (some "closing")
    have hT : (if (wait_pulses (closeStart st resuming) trace (n : Int)
          (some "closing")).2 = true then "closed" else "failed closing")
        = (if n ≤ countRising none trace then "closed" else "failed closing") := by
      rw [hw]
      by_cases h : n ≤ countRising none trace <;> simp [h]
    refine ⟨(wait_pulses (closeStart st resuming) trace (n : Int)
      (some "closing")).1.log, ?_, ?_, ?_, rfl⟩
    · show (update_status _ _ _).log = _
      rw [update_status_log, stop_and_housekeeping_eq, hT]
      simp
    · show (update_status _ _ _).status = _
      rw [hT]
      rfl
    · show (update_status _ _ _).journal = _
      rw [hT]
      rfl

/-- Witness for C4 at a concrete run: from `closed`, with one rising
edge in the trace and target 1, `open()` ends with in-memory status
`open`; with an empty trace it ends with `failed opening`. -/
theorem claim4_always_stop_then_sync_terminal_witness :
    (openOp stClosed [false, true] (some ((1 : Nat) : Int)) false).1.status
      = some "open"
  ∧ (openOp stClosed [] (some ((1 : Nat) : Int)) false).1.status
      = some "failed opening" := by
  constructor
  · obtain ⟨l, _, hstatus, _, _⟩ :=
      (claim4_always_stop_then_sync_terminal stClosed [false, true] 1 false rfl rfl).1
        (Or.inr rfl)
    rw [hstatus, if_pos (by decide)]
  · obtain ⟨l, _, hstatus, _, _⟩ :=
      (claim4_always_stop_then_sync_terminal stClosed [] 1 false rfl rfl).1
        (Or.inr rfl)
    rw [hstatus, if_neg (by decide)]

/-- Claim C5: `resume` on a persisted `opening <t>` (resp. `closing <t>`)
status re-invokes `open` (resp. `close`) with exactly the parsed count
and `resuming=true` — so the re-driven wait loop targets the persisted
remaining value, not the configured full pulse count — and on a
non-integer count token it is a hard failure: it returns `false` with
the state untouched, never guessing a count. -/
theorem claim5_resume_uses_persisted_count (st : PState) (trace : List Bool)
    (t : String) (n : Int) :
    (st.status = some ("opening " ++ t) →
      pySplit ("opening " ++ t) = ["opening", t] →
      (pyInt? t = some n →
        resumeOp st trace = ((openOp st trace (some n) true).1, true))
      ∧ (pyInt? t = none → resumeOp st trace = (st, false)))
  ∧ (st.status = some ("closing " ++ t) →
      pySplit ("closing " ++ t) = ["closing", t] →
      (pyInt? t = some n →
        resumeOp st trace = ((closeOp st trace (some n) true).1, true))
      ∧ (pyInt? t = none → resumeOp st trace = (st, false))) :=
  ⟨fun hs hsplit =>
    ⟨fun hint => resumeOp_opening st trace t n hs hsplit hint,
     fun hint => resumeOp_opening_malformed st trace t hs hsplit hint⟩,
   fun hs hsplit =>
    ⟨fun hint => resumeOp_closing st trace t n hs hsplit hint,
     fun hint => resumeOp_closing_malformed st trace t hs hsplit hint⟩⟩

/-- Witness for C5 at concrete states: `opening 7` resumes as
`open(7, resuming=True)`; `opening x` is rejected untouched. -/
theorem claim5_resume_uses_persisted_count_witness :
    resumeOp { stClosed with status := some "opening 7" } []
      = ((openOp { stClosed with status := some "opening 7" } [] (some 7) true).1, true)
  ∧ resumeOp { stClosed with status := some "opening x" } []
      = ({ stClosed with status := some "opening x" }, false) :=
  ⟨((claim5_resume_uses_persisted_count
      { stClosed with status := some "opening 7" } [] "7" 7).1 rfl (by decide)).1
      (by decide),
   ((claim5_resume_uses_persisted_count
      { stClosed with status := some "opening x" } [] "x" 0).1 rfl (by decide)).2
      (by decide)⟩

/-- Claim C7 (counterexample): from `closed`, a non-resuming `open(3)`
first writes the bare status `"opening"` — not `"opening 3"` as the
claim requires — before the wait loop (here the loop then times out on
an empty trace, writing the terminal status). -/
theorem claim7_bare_token_counterexample :
    statusWrites (openOp stClosed [] (some 3) false).1.log
      = ["opening", "failed opening"]
  ∧ "opening" ≠ "opening 3" :=
  ⟨rfl, by decide⟩

/-- Claim C7 (amended): before the pulse-wait loop starts, a
non-resuming `open`/`close` that passes its precondition writes the bare
in-progress token (`"opening"`/`"closing"`) with no remaining count; a
count appears only in the per-pulse updates issued inside the loop. -/
theorem claim7_amended_bare_token_written (st : PState) (trace : List Bool)
    (k : Int) (hb : st.motorBusy = false) (hf : st.fakingIt = false) :
    (st.status = some "closed" →
      ∃ rest, statusWrites (openOp st trace (some k) false).1.log
        = statusWrites st.log ++ "opening" :: rest)
  ∧ (st.status = some "open" →
      ∃ rest, statusWrites (closeOp st trace (some k) false).1.log
        = statusWrites st.log ++ "closing" :: rest) := by
  constructor
  · intro hs
    rw [openOp_phys st trace k false (Or.inr hs) hb hf]
    obtain ⟨ext, hext⟩ :=
      waitLoop_log_mono (some "opening") k trace none 0 (openStart st false)
    refine ⟨statusWrites ext
      ++ [if (wait_pulses (openStart st false) trace k (some "opening")).2
          then "open" else "failed opening"], ?_⟩
    rw [update_status_statusWrites, stop_statusWrites]
    have hw1 : (wait_pulses (openStart st false) trace k (some "opening")).1.log
        = (openStart st false).log ++ ext := hext
    rw [hw1, statusWrites_append]
    have hos : statusWrites (openStart st false).log
        = statusWrites st.log ++ ["opening"] := by
      simp only [openStart, Bool.not_false, if_true]
      rw [update_status_statusWrites, forward_statusWrites st hb hf]
    rw [hos]
    simp
  · intro hs
    rw [closeOp_phys st trace k false (Or.inr hs) hb hf]
    obtain ⟨ext, hext⟩ :=
      waitLoop_log_mono (some "closing") k trace none 0 (closeStart st false)
    refine ⟨statusWrites ext
      ++ [if (wait_pulses (closeStart st false) trace k (some "closing")).2
          then "closed" else "failed closing"], ?_⟩
    rw [update_status_statusWrites, stop_statusWrites]
    have hw1 : (wait_pulses (closeStart st false) trace k (some "closing")).1.log
        = (closeStart st false).log ++ ext := hext
    rw [hw1, statusWrites_append]
    have hcs : statusWrites (closeStart st false).log
        = statusWrites st.log ++ ["closing"] := by
      simp only [closeStart, Bool.not_false, if_true]
      rw [update_status_statusWrites, reverse_statusWrites st hb hf]
    rw [hcs]
    simp

/-- Witness for the amended C7 at concrete runs from `closed`/`open`. -/
theorem claim7_amended_bare_token_written_witness :
    (∃ rest, statusWrites (openOp stClosed [] (some 3) false).1.log
      = statusWrites stClosed.log ++ "opening" :: rest)
  ∧ (∃ rest, statusWrites (closeOp stOpen [] (some 3) false).1.log
      = statusWrites stOpen.log ++ "closing" :: rest) :=
  ⟨(claim7_amended_bare_token_written stClosed [] 3 rfl rfl).1 rfl,
   (claim7_amended_bare_token_written stOpen [] 3 rfl rfl).2 rfl⟩

/-- Claim C9 (counterexample): with target 1 and a single sample (resp.
a 1-second budget), the physical loop counts 0 pulses — the first
sample is only a baseline — and reports timeout, while the simulated
loop counts a pulse on its very first iteration and reports success.
The simulated implementation therefore does not share the
baseline-discard part of the contract; the difference is not merely
polling cadence. -/
theorem claim9_baseline_counterexample :
    (waitLoop (some "opening") 1 [true] none 0 stClosed).2 = 0
  ∧ (fakeLoop (some "opening") 1 1 none 0 stClosed).2 = 1
  ∧ (wait_pulses stClosed [true] 1 (some "opening")).2 = false
  ∧ (fake_wait_pulses { stClosed with maxtime := 1 } 1 (some "opening")).2 = true :=
  ⟨rfl, rfl, rfl, rfl⟩

/-- Claim C9 (amended): the simulated wait shares the return-value and
per-pulse status-update contract in terms of synthesized pulses — it
returns `true` iff the target is at most the number of one-second
iterations the timeout allows, and each counted pulse writes the prefix
plus a remaining count decreasing by exactly 1 — but it samples no real
input and performs no baseline discard: it fabricates one low→high
transition per iteration from the first iteration on. -/
theorem claim9_amended_fake_contract (st : PState) (n m : Nat) (p : String)
    (hm : st.maxtime = (m : Int)) :
    ((fake_wait_pulses st (n : Int) (some p)).2 = true ↔ n ≤ m)
  ∧ statusWrites (fake_wait_pulses st (n : Int) (some p)).1.log
      = statusWrites st.log
        ++ ((List.range' 1 (min n m)).map
            fun j : Nat => p ++ " " ++ toString (n - j)) := by
  constructor
  · rw [fake_wait_pulses_snd st n m (some p) hm]
    exact decide_eq_true_iff
  · rw [fake_wait_pulses_writes st n m p hm]
    congr 1
    apply List.map_congr_left
    intro j hj
    have hj' : 1 ≤ j ∧ j < 1 + min n m := by
      simpa using List.mem_range'_1.1 hj
    have hcast : ((n : Int) - (j : Int)) = ((n - j : Nat) : Int) := by
      have : j ≤ n := by omega
      omega
    rw [hcast, toString_natCast_int]

/-- Witness for the amended C9: a 3-second budget and target 2. -/
theorem claim9_amended_fake_contract_witness :
    ((fake_wait_pulses { stClosed with maxtime := 3 } ((2 : Nat) : Int)
        (some "opening")).2 = true ↔ (2 : Nat) ≤ 3)
  ∧ statusWrites (fake_wait_pulses { stClosed with maxtime := 3 } ((2 : Nat) : Int)
        (some "opening")).1.log
      = statusWrites ({ stClosed with maxtime := 3 } : PState).log
        ++ ((List.range' 1 (min 2 3)).map
            fun j : Nat => "opening" ++ " " ++ toString (2 - j)) :=
  claim9_amended_fake_contract { stClosed with maxtime := 3 } 2 3 "opening" rfl

/-- Claim C10: `resume()` on a well-formed in-progress status returns
`true` regardless of the re-driven operation's outcome: the boolean only
reports that an interrupted operation was found and re-driven.  In
particular, with an empty feedback trace the resumed physical drive
times out and terminally records `failed opening`/`failed closing`, yet
`resume` still returns `true`. -/
theorem claim10_resume_true_even_on_timeout (st : PState) (t : String) (n : Nat)
    (hn : 0 < n) (hb : st.motorBusy = false) (hf : st.fakingIt = false)
    (hint : pyInt? t = some (n : Int)) :
    (st.status = some ("opening " ++ t) →
      pySplit ("opening " ++ t) = ["opening", t] →
      (∀ trace, (resumeOp st trace).2 = true)
      ∧ (resumeOp st []).1.status = some "failed opening")
  ∧ (st.status = some ("closing " ++ t) →
      pySplit ("closing " ++ t) = ["closing", t] →
      (∀ trace, (resumeOp st trace).2 = true)
      ∧ (resumeOp st []).1.status = some "failed closing") := by
  constructor
  · intro hs hsplit
    constructor
    · intro trace
      rw [resumeOp_opening st trace t (n : Int) hs hsplit hint]
    · rw [resumeOp_opening st [] t (n : Int) hs hsplit hint]
      rw [openOp_phys st [] (n : Int) true (Or.inl rfl) hb hf]
      have hw : (wait_pulses (openStart st true) [] (n : Int) (some "opening")).2
          = false := by
        rw [wait_pulses_snd]
        exact decide_eq_false (by simpa [countRising] using by omega)
      show (update_status _ _ _).status = _
      rw [hw]
      rfl
  · intro hs hsplit
    constructor
    · intro trace
      rw [resumeOp_closing st trace t (n : Int) hs hsplit hint]
    · rw [resumeOp_closing st [] t (n : Int) hs hsplit hint]
      rw [closeOp_phys st [] (n : Int) true (Or.inl rfl) hb hf]
      have hw : (wait_pulses (closeStart st true) [] (n : Int) (some "closing")).2
          = false := by
        rw [wait_pulses_snd]
        exact decide_eq_false (by simpa [countRising] using by omega)
      show (update_status _ _ _).status = _
      rw [hw]
      rfl

/-- Witness for C10: resuming `closing 2` with no feedback ends in the
terminal `failed closing`, yet `resume` reports `true`. -/
theorem claim10_resume_true_even_on_timeout_witness :
    (resumeOp { stClosed with status := some "closing 2" } []).2 = true
  ∧ (resumeOp { stClosed with status := some "closing 2" } []).1.status
      = some "failed closing" := by
  have h := (claim10_resume_true_even_on_timeout
      { stClosed with status := some "closing 2" } "2" 2 (by decide) rfl rfl
      (by decide)).2 rfl (by decide)
  exact ⟨h.1 [], h.2⟩

end Pimc
